import Mathlib

/-!
Shallow embedding of `demo/python/getweather_mic.py` (Porcupine wake-word
microphone demo).

The demo's `PorcupineDemo.run` method acquires a Porcupine detector instance,
a PyAudio handle and an input audio stream, then loops forever: read one
fixed-length PCM frame, optionally append it to an in-memory recording list,
submit it to the detector, and on a non-negative result print a detection
notice and run the (unguarded) weather/text-to-speech reaction pipeline.
`KeyboardInterrupt` is caught and turns into a graceful stop; any other
exception propagates.  The `finally` block deletes the detector, closes the
stream, terminates PyAudio, and — when an output path was given and at least
one frame was recorded — concatenates the recorded frames and writes them as
a 16-bit PCM file at the detector's sample rate.

The embedding drives one session by a finite *script*: for each loop
iteration the script says what `audio_stream.read` does (returns a frame,
raises a stream error, or the iteration is interrupted by
`KeyboardInterrupt`), what `porcupine.process` returns, and whether the
reaction pipeline succeeds.  Executing the session produces a trace of
observable events (acquisitions, prints, reads, appends, detector calls,
releases, file writes) plus the final recording state and an outcome telling
how the Python function terminated.
-/

/-- A PCM audio frame: a list of samples (integers). -/
abbrev Frame := List Int

/-- Interpretation of one signed 16-bit value, as produced for each sample by
`struct.unpack_from("h" * frame_length, pcm)` (line 109): the result always
lies in `[-32768, 32767]`. -/
def toInt16 (n : Int) : Int := (n + 32768) % 65536 - 32768

/-- Effect of `struct.unpack_from("h" * frame_length, pcm)` on a whole frame. -/
def unpack_h (pcm : Frame) : Frame := pcm.map toInt16

/-- Line 138: `np.concatenate(frames).astype(np.int16)` applies the int16 conversion to
every sample of the concatenation (line 138). -/
def astypeInt16 (xs : List Int) : List Int := xs.map toInt16

/-- A sample that is already a valid signed 16-bit value. -/
def int16Sample (s : Int) : Bool := decide (-32768 ≤ s) && decide (s < 32768)

/-- A frame whose samples are all valid signed 16-bit values (which is what
`struct.unpack_from("h" * n, ...)` always yields). -/
def int16Frame (pcm : Frame) : Bool := pcm.all int16Sample

/-- Keyword label derivation of `run` (line 80):
`os.path.basename(x).replace('.ppn', '').split('_')[0]`. -/
def keywordLabel (path : String) : String :=
  ((((path.splitOn "/").getLastD path).replace ".ppn" "").splitOn "_").headD ""

/-- The configuration held by a `PorcupineDemo` instance (constructor,
lines 37-70), together with the sample rate the created Porcupine instance
reports (`porcupine.sample_rate`, an external property of the engine). -/
structure DemoConfig where
  keyword_paths : List String
  sensitivities : List Rat
  sample_rate : Nat
  output_path : Option String
  deriving DecidableEq, Repr

/-- What `audio_stream.read` does on one loop iteration. -/
inductive ReadOutcome where
  /-- The read returns a full frame of raw sample values. -/
  | ok (pcm : Frame)
  /-- The read raises a device-level stream error (an ordinary exception). -/
  | streamErr
  /-- A `KeyboardInterrupt` is delivered at the blocking read. -/
  | interrupt
  deriving DecidableEq, Repr

/-- The script entry for one loop iteration: the read outcome, the value
`porcupine.process(pcm)` returns for the frame (negative means no match),
and whether the reaction pipeline (`get_weather` / `extract_spoken_weather`
/ `text_to_speech`) completes without raising. -/
structure Iteration where
  read : ReadOutcome
  result : Int
  reactionOk : Bool
  deriving DecidableEq, Repr

/-- Observable events of one session of `PorcupineDemo.run`. -/
inductive Event where
  /-- Effect of `pvporcupine.create(...)` (line 86). -/
  | acquireDetector
  /-- Effect of `pa = pyaudio.PyAudio()` (line 92). -/
  | acquirePa
  /-- Effect of `audio_stream = pa.open(...)` (line 94). -/
  | acquireStream
  /-- A plain console print. -/
  | printMsg (s : String)
  /-- The per-keyword line of the listening banner (lines 103-104). -/
  | printKeyword (label : String) (sens : Rat)
  /-- A completed `audio_stream.read` returning the (unpacked) frame. -/
  | readFrame (pcm : Frame)
  /-- Effect of `self._recorded_frames.append(pcm)` (line 112). -/
  | appendFrame (pcm : Frame)
  /-- Effect of `porcupine.process(pcm)` (line 114). -/
  | processFrame (pcm : Frame)
  /-- The `'[%s] Detected %s'` print: wall-clock timestamp plus the matched
  keyword's label (line 116). -/
  | detectPrint (label : String)
  /-- The reaction pipeline ran to completion (lines 119-123). -/
  | reactionRun
  /-- Effect of `porcupine.delete()` (line 129). -/
  | releaseDetector
  /-- Effect of `audio_stream.close()` (line 132). -/
  | closeStream
  /-- Effect of `pa.terminate()` (line 135). -/
  | terminatePa
  /-- Effect of `soundfile.write(path, samples, samplerate, subtype)` (line 139). -/
  | writeFile (path : String) (samples : List Int) (rate : Nat) (subtype : String)
  deriving DecidableEq, Repr

/-- How the loop of `run` ended. -/
inductive LoopExit where
  /-- A `KeyboardInterrupt` caught by the `except` clause. -/
  | interrupted
  /-- A stream error escaped from `audio_stream.read`. -/
  | streamError
  /-- An exception escaped from the reaction pipeline. -/
  | reactionError
  /-- The script ran out; the `while True` loop is still running. -/
  | exhausted
  deriving DecidableEq, Repr

/-- Result of running the loop body over a script. -/
structure LoopOut where
  evs : List Event
  frames : Option (List Frame)
  ex : LoopExit
  deriving DecidableEq, Repr

/-- The `while True` loop of `run` (lines 107-123), driven by a script.
`fr` is `self._recorded_frames` — `some` list exactly when
`self._output_path is not None` (the attribute exists only then,
lines 69-70), mirroring the guard at line 111. -/
def loopGo (kw : List String) : List Iteration → Option (List Frame) → LoopOut
  | [], fr => ⟨[], fr, .exhausted⟩
  | it :: rest, fr =>
    match it.read with
    | .streamErr => ⟨[], fr, .streamError⟩
    | .interrupt => ⟨[], fr, .interrupted⟩
    | .ok raw =>
      let pcm := unpack_h raw
      let fr' := fr.map (· ++ [pcm])
      let baseEvs := Event.readFrame pcm ::
        ((if fr.isSome then [Event.appendFrame pcm] else []) ++ [Event.processFrame pcm])
      if 0 ≤ it.result then
        let devs := baseEvs ++ [Event.detectPrint (kw.getD it.result.toNat "")]
        if it.reactionOk then
          let out := loopGo kw rest fr'
          ⟨devs ++ Event.reactionRun :: out.evs, out.frames, out.ex⟩
        else
          ⟨devs, fr', .reactionError⟩
      else
        let out := loopGo kw rest fr'
        ⟨baseEvs ++ out.evs, out.frames, out.ex⟩

/-- The `finally` block of `run` (lines 127-139): delete the detector, close
the stream, terminate PyAudio, then — if an output path was set and at least
one frame was recorded — concatenate the frames and write them as PCM_16 at
`porcupine.sample_rate`. -/
def cleanupEvents (cfg : DemoConfig) (fr : Option (List Frame)) : List Event :=
  Event.releaseDetector :: Event.closeStream :: Event.terminatePa ::
  (match cfg.output_path, fr with
   | some p, some fs =>
     if 0 < fs.length then
       [Event.writeFile p (astypeInt16 fs.flatten) cfg.sample_rate "PCM_16"]
     else []
   | _, _ => [])

/-- How the whole `run` call terminated. -/
inductive Outcome where
  /-- Returned normally (in particular after a caught `KeyboardInterrupt`). -/
  | normal
  /-- A stream error propagated to the caller after the `finally` block. -/
  | raisedStreamError
  /-- A reaction-pipeline exception propagated after the `finally` block. -/
  | raisedReactionError
  /-- The script is exhausted and the loop is still running. -/
  | running
  deriving DecidableEq, Repr

/-- Result of one session. -/
structure RunResult where
  trace : List Event
  frames : Option (List Frame)
  outcome : Outcome
  deriving DecidableEq, Repr

/-- The acquisitions and the listening banner performed by `run` before the
loop starts (lines 86-105). -/
def startEvs (cfg : DemoConfig) : List Event :=
  Event.acquireDetector :: Event.acquirePa :: Event.acquireStream ::
  Event.printMsg "Listening \x7b" ::
  (((cfg.keyword_paths.map keywordLabel).zip cfg.sensitivities).map
      (fun ks => Event.printKeyword ks.1 ks.2) ++
    [Event.printMsg "\x7d"])

/-- The keyword labels `run` derives from the keyword paths (lines 78-80). -/
def demoKw (cfg : DemoConfig) : List String := cfg.keyword_paths.map keywordLabel

/-- The initial `self._recorded_frames` state: an empty list exactly when an
output path was given (lines 68-70), absent otherwise. -/
def initFrames (cfg : DemoConfig) : Option (List Frame) :=
  if cfg.output_path.isSome then some [] else none

/-- The loop of the session described by `cfg` on a given script. -/
def demoLoop (cfg : DemoConfig) (script : List Iteration) : LoopOut :=
  loopGo (demoKw cfg) script (initFrames cfg)

/-- Model of `PorcupineDemo.run` (lines 72-139): derive keyword labels, acquire the
detector, PyAudio and the stream, print the listening banner, run the loop,
and on every exit path run the `finally` cleanup.  A caught
`KeyboardInterrupt` additionally prints `Stopping ...` (line 126) before the
`finally` block and the call returns normally; other exceptions propagate
after cleanup. -/
def PorcupineDemo.run (cfg : DemoConfig) (script : List Iteration) : RunResult :=
  let out := demoLoop cfg script
  match out.ex with
  | .exhausted => ⟨startEvs cfg ++ out.evs, out.frames, .running⟩
  | .interrupted =>
    ⟨startEvs cfg ++ out.evs ++ Event.printMsg "Stopping ..." :: cleanupEvents cfg out.frames,
      out.frames, .normal⟩
  | .streamError =>
    ⟨startEvs cfg ++ out.evs ++ cleanupEvents cfg out.frames, out.frames, .raisedStreamError⟩
  | .reactionError =>
    ⟨startEvs cfg ++ out.evs ++ cleanupEvents cfg out.frames, out.frames, .raisedReactionError⟩

/-! ## The `main` entry point (lines 235-297) -/

/-- Model of `pvporcupine.KEYWORD_PATHS[x]` — the external library's mapping from a
default keyword name to its model file path.  Only its existence matters to
the claims (it preserves the number of entries). -/
def KEYWORD_PATHS (k : String) : String := "pvporcupine/resources/" ++ k ++ "_linux.ppn"

/-- Value of `porcupine.sample_rate` of the external engine. -/
def pvSampleRate : Nat := 16000

/-- The parsed command-line arguments of `main` that the claims touch. -/
structure Args where
  keywords : Option (List String)
  keyword_paths : Option (List String)
  sensitivities : Option (List Rat)
  output_path : Option String
  show_audio_devices : Bool
  deriving DecidableEq, Repr

/-- What `main` decides to do after argument validation. -/
inductive MainResult where
  /-- The `--show_audio_devices` branch: diagnostics only, no session. -/
  | showDevices
  /-- A `ValueError` raised during validation, before any construction. -/
  | configError (msg : String)
  /-- Validation passed: a `PorcupineDemo` with this configuration is run. -/
  | session (cfg : DemoConfig)
  deriving DecidableEq, Repr

/-- Keyword-path resolution of `main` (lines 277-283). -/
def resolveKeywordPaths (a : Args) : Except String (List String) :=
  match a.keyword_paths with
  | some kp => .ok kp
  | none =>
    match a.keywords with
    | none => .error "Either `--keywords` or `--keyword_paths` must be set."
    | some ks => .ok (ks.map KEYWORD_PATHS)

/-- The decision logic of `main` (lines 274-297): the diagnostics branch,
keyword-path resolution, sensitivity defaulting (line 286), and the
keyword/sensitivity count check (lines 288-289), all performed before a
`PorcupineDemo` is constructed and run. -/
def mainLogic (a : Args) : MainResult :=
  if a.show_audio_devices then .showDevices
  else
    match resolveKeywordPaths a with
    | .error e => .configError e
    | .ok kp =>
      let sens :=
        match a.sensitivities with
        | none => List.replicate kp.length ((1 : Rat) / 2)
        | some ss => ss
      if kp.length ≠ sens.length then
        .configError "Number of keywords does not match the number of sensitivities."
      else
        .session ⟨kp, sens, pvSampleRate, a.output_path⟩

/-- Observable result of the whole program on given arguments. -/
inductive ProgramResult where
  | devicesListed
  | configError (msg : String)
  | ran (r : RunResult)
  deriving DecidableEq, Repr

/-- The whole program: `main` validation, then — only if validation passed —
the session.  The event list is every acquisition/side effect performed; a
validation failure performs none. -/
def programRun (a : Args) (script : List Iteration) : List Event × ProgramResult :=
  match mainLogic a with
  | .showDevices => ([], .devicesListed)
  | .configError e => ([], .configError e)
  | .session cfg =>
    let r := PorcupineDemo.run cfg script
    (r.trace, .ran r)

/-! ## Trace classifiers and script measures -/

def isReadEvent : Event → Bool
  | .readFrame _ => true
  | _ => false

def isAppendEvent : Event → Bool
  | .appendFrame _ => true
  | _ => false

def isDetectEvent : Event → Bool
  | .detectPrint _ => true
  | _ => false

def isReactionEvent : Event → Bool
  | .reactionRun => true
  | _ => false

def isWriteEvent : Event → Bool
  | .writeFile _ _ _ _ => true
  | _ => false

def isReleaseDetectorEvent : Event → Bool
  | .releaseDetector => true
  | _ => false

def isCloseStreamEvent : Event → Bool
  | .closeStream => true
  | _ => false

def isAcquireDetectorEvent : Event → Bool
  | .acquireDetector => true
  | _ => false

def isAcquireStreamEvent : Event → Bool
  | .acquireStream => true
  | _ => false

/-- Events that can be emitted by the loop body itself. -/
def isLoopEvent : Event → Bool
  | .readFrame _ => true
  | .appendFrame _ => true
  | .processFrame _ => true
  | .detectPrint _ => true
  | .reactionRun => true
  | _ => false

/-- Events of the `finally` cleanup block. -/
def isCleanupEvent : Event → Bool
  | .releaseDetector => true
  | .closeStream => true
  | .terminatePa => true
  | .writeFile _ _ _ _ => true
  | _ => false

/-- An iteration on which the loop keeps going: the read returns a frame and,
if the frame matches, the reaction pipeline does not raise. -/
def continuesb (it : Iteration) : Bool :=
  (match it.read with
   | .ok _ => true
   | _ => false) &&
  (decide (it.result < 0) || it.reactionOk)

/-- The frames a script prefix delivers, as unpacked by line 109. -/
def framesRead (pre : List Iteration) : List Frame :=
  pre.filterMap fun it =>
    match it.read with
    | .ok raw => some (unpack_h raw)
    | _ => none

/-- The raw frames a script prefix delivers. -/
def rawFrames (pre : List Iteration) : List Frame :=
  pre.filterMap fun it =>
    match it.read with
    | .ok raw => some raw
    | _ => none

/-- The loop events of one continuing iteration (`b` says whether a
recording buffer is attached). -/
def iterEvs (kw : List String) (b : Bool) (it : Iteration) : List Event :=
  match it.read with
  | .ok raw =>
    let pcm := unpack_h raw
    Event.readFrame pcm ::
      ((if b then [Event.appendFrame pcm] else []) ++ [Event.processFrame pcm] ++
        (if 0 ≤ it.result then
          [Event.detectPrint (kw.getD it.result.toNat ""), Event.reactionRun]
        else []))
  | _ => []

/-- The loop events of a continuing script prefix. -/
def preEvs (kw : List String) (b : Bool) (pre : List Iteration) : List Event :=
  pre.flatMap (iterEvs kw b)

/-- Events emitted before the loop starts. -/
def isStartEvent : Event → Bool
  | .acquireDetector => true
  | .acquirePa => true
  | .acquireStream => true
  | .printMsg _ => true
  | .printKeyword _ _ => true
  | _ => false

/-! ## Basic lemmas about the int16 view and the event classes -/

theorem toInt16_of_int16 {s : Int} (h : int16Sample s = true) : toInt16 s = s := by
  simp only [int16Sample, Bool.and_eq_true, decide_eq_true_eq] at h
  unfold toInt16
  rw [Int.emod_eq_of_lt (by omega) (by omega)]
  omega

theorem astypeInt16_of_int16 {xs : List Int} (h : xs.all int16Sample = true) :
    astypeInt16 xs = xs := by
  simp only [List.all_eq_true] at h
  unfold astypeInt16
  induction xs with
  | nil => rfl
  | cons x xs ih =>
    simp only [List.map_cons]
    rw [toInt16_of_int16 (h x (by simp)), ih (fun s hs => h s (by simp [hs]))]

theorem unpack_h_of_int16 {pcm : Frame} (h : int16Frame pcm = true) : unpack_h pcm = pcm :=
  astypeInt16_of_int16 h
theorem loopGo_nil (kw : List String) (fr : Option (List Frame)) :
    loopGo kw [] fr = ⟨[], fr, .exhausted⟩ := rfl

theorem loopGo_cons_streamErr (kw : List String) (it : Iteration) (rest : List Iteration)
    (fr : Option (List Frame)) (h : it.read = .streamErr) :
    loopGo kw (it :: rest) fr = ⟨[], fr, .streamError⟩ := by
  obtain ⟨rd, res, rok⟩ := it
  simp only [Iteration.read] at h
  subst h
  rfl

theorem loopGo_cons_interrupt (kw : List String) (it : Iteration) (rest : List Iteration)
    (fr : Option (List Frame)) (h : it.read = .interrupt) :
    loopGo kw (it :: rest) fr = ⟨[], fr, .interrupted⟩ := by
  obtain ⟨rd, res, rok⟩ := it
  simp only [Iteration.read] at h
  subst h
  rfl

theorem loopGo_cons_ok_nomatch (kw : List String) (it : Iteration) (rest : List Iteration)
    (fr : Option (List Frame)) (raw : Frame) (h : it.read = .ok raw) (hres : it.result < 0) :
    loopGo kw (it :: rest) fr =
      ⟨Event.readFrame (unpack_h raw) ::
          ((if fr.isSome then [Event.appendFrame (unpack_h raw)] else []) ++
            [Event.processFrame (unpack_h raw)]) ++
          (loopGo kw rest (fr.map (· ++ [unpack_h raw]))).evs,
        (loopGo kw rest (fr.map (· ++ [unpack_h raw]))).frames,
        (loopGo kw rest (fr.map (· ++ [unpack_h raw]))).ex⟩ := by
  obtain ⟨rd, res, rok⟩ := it
  simp only [Iteration.read] at h
  simp only [Iteration.result] at hres
  subst h
  simp [loopGo, not_le.mpr hres]

theorem loopGo_cons_ok_match (kw : List String) (it : Iteration) (rest : List Iteration)
    (fr : Option (List Frame)) (raw : Frame) (h : it.read = .ok raw) (hres : 0 ≤ it.result)
    (hok : it.reactionOk = true) :
    loopGo kw (it :: rest) fr =
      ⟨(Event.readFrame (unpack_h raw) ::
          ((if fr.isSome then [Event.appendFrame (unpack_h raw)] else []) ++
            [Event.processFrame (unpack_h raw)]) ++
          [Event.detectPrint (kw.getD it.result.toNat "")]) ++
          Event.reactionRun :: (loopGo kw rest (fr.map (· ++ [unpack_h raw]))).evs,
        (loopGo kw rest (fr.map (· ++ [unpack_h raw]))).frames,
        (loopGo kw rest (fr.map (· ++ [unpack_h raw]))).ex⟩ := by
  obtain ⟨rd, res, rok⟩ := it
  simp only [Iteration.read] at h
  simp only [Iteration.result] at hres ⊢
  simp only [Iteration.reactionOk] at hok
  subst h
  subst hok
  simp [loopGo, hres]

theorem loopGo_cons_ok_reactionFail (kw : List String) (it : Iteration) (rest : List Iteration)
    (fr : Option (List Frame)) (raw : Frame) (h : it.read = .ok raw) (hres : 0 ≤ it.result)
    (hok : it.reactionOk = false) :
    loopGo kw (it :: rest) fr =
      ⟨Event.readFrame (unpack_h raw) ::
          ((if fr.isSome then [Event.appendFrame (unpack_h raw)] else []) ++
            [Event.processFrame (unpack_h raw)]) ++
          [Event.detectPrint (kw.getD it.result.toNat "")],
        fr.map (· ++ [unpack_h raw]), .reactionError⟩ := by
  obtain ⟨rd, res, rok⟩ := it
  simp only [Iteration.read] at h
  simp only [Iteration.result] at hres ⊢
  simp only [Iteration.reactionOk] at hok
  subst h
  subst hok
  simp [loopGo, hres]

theorem startEvs_start (cfg : DemoConfig) : ∀ e ∈ startEvs cfg, isStartEvent e = true := by
  intro e he
  simp only [startEvs, List.mem_cons, List.mem_append, List.mem_map,
    List.mem_singleton, List.not_mem_nil, or_false] at he
  rcases he with rfl | rfl | rfl | rfl | ⟨ks, _, rfl⟩ | rfl <;> rfl

theorem countP_eq_zero_of_class {p q : Event → Bool} {l : List Event}
    (hl : ∀ e ∈ l, q e = true) (hpq : ∀ e, q e = true → p e = false) :
    l.countP p = 0 := by
  rw [List.countP_eq_zero]
  intro e he
  simp [hpq e (hl e he)]


theorem loopGo_evs_all_loop (kw : List String) (script : List Iteration)
    (fr : Option (List Frame)) : (loopGo kw script fr).evs.all isLoopEvent = true := by
  induction script generalizing fr with
  | nil => rw [loopGo_nil]; rfl
  | cons it rest ih =>
    rcases hread : it.read with raw | _ | _
    · by_cases hres : 0 ≤ it.result
      · by_cases hok : it.reactionOk = true
        · rw [loopGo_cons_ok_match kw it rest fr raw hread hres hok]
          rcases fr with _ | fs <;>
            simp [List.all_append, isLoopEvent, ih]
        · rw [loopGo_cons_ok_reactionFail kw it rest fr raw hread hres
            (Bool.not_eq_true _ ▸ hok)]
          rcases fr with _ | fs <;>
            simp [List.all_append, isLoopEvent]
      · rw [loopGo_cons_ok_nomatch kw it rest fr raw hread (by omega)]
        rcases fr with _ | fs <;>
          simp [List.all_append, isLoopEvent, ih]
    · rw [loopGo_cons_streamErr kw it rest fr hread]; rfl
    · rw [loopGo_cons_interrupt kw it rest fr hread]; rfl

theorem loopGo_evs_loop (kw : List String) (script : List Iteration)
    (fr : Option (List Frame)) : ∀ e ∈ (loopGo kw script fr).evs, isLoopEvent e = true :=
  List.all_eq_true.mp (loopGo_evs_all_loop kw script fr)

theorem framesRead_nil : framesRead [] = [] := rfl

theorem framesRead_cons_ok {it : Iteration} {raw : Frame} (pre : List Iteration)
    (h : it.read = .ok raw) :
    framesRead (it :: pre) = unpack_h raw :: framesRead pre := by
  obtain ⟨rd, res, rok⟩ := it
  simp only [Iteration.read] at h
  subst h
  rfl

theorem preEvs_nil (kw : List String) (b : Bool) : preEvs kw b [] = [] := rfl

theorem preEvs_cons (kw : List String) (b : Bool) (it : Iteration) (pre : List Iteration) :
    preEvs kw b (it :: pre) = iterEvs kw b it ++ preEvs kw b pre := by
  simp [preEvs]

theorem iterEvs_ok {it : Iteration} {raw : Frame} (kw : List String) (b : Bool)
    (h : it.read = .ok raw) :
    iterEvs kw b it =
      Event.readFrame (unpack_h raw) ::
        ((if b then [Event.appendFrame (unpack_h raw)] else []) ++
          [Event.processFrame (unpack_h raw)] ++
          (if 0 ≤ it.result then
            [Event.detectPrint (kw.getD it.result.toNat ""), Event.reactionRun]
          else [])) := by
  obtain ⟨rd, res, rok⟩ := it
  simp only [Iteration.read] at h
  subst h
  rfl

theorem loopGo_append (kw : List String) (pre rest : List Iteration)
    (fr : Option (List Frame)) (h : ∀ x ∈ pre, continuesb x = true) :
    loopGo kw (pre ++ rest) fr =
      ⟨preEvs kw fr.isSome pre ++ (loopGo kw rest (fr.map (· ++ framesRead pre))).evs,
        (loopGo kw rest (fr.map (· ++ framesRead pre))).frames,
        (loopGo kw rest (fr.map (· ++ framesRead pre))).ex⟩ := by
  induction pre generalizing fr with
  | nil =>
    rcases fr with _ | fs <;> simp [preEvs_nil, framesRead_nil]
  | cons it pre ih =>
    have hit := h it (by simp)
    have hpre : ∀ x ∈ pre, continuesb x = true := fun x hx => h x (by simp [hx])
    have hfun : ∀ raw : Frame,
        ((fun x => x ++ framesRead pre) ∘ fun x : List Frame => x ++ [unpack_h raw]) =
          (fun x => x ++ unpack_h raw :: framesRead pre) := by
      intro raw; funext x; simp
    rcases hread : it.read with raw | _ | _
    · by_cases hres : 0 ≤ it.result
      · have hok : it.reactionOk = true := by
          simp only [continuesb, hread, Bool.true_and, Bool.or_eq_true,
            decide_eq_true_eq] at hit
          rcases hit with h1 | h1
          · omega
          · exact h1
        rw [List.cons_append, loopGo_cons_ok_match kw it (pre ++ rest) fr raw hread hres hok,
          ih _ hpre]
        simp only [LoopOut.mk.injEq]
        refine ⟨?_, ?_, ?_⟩ <;>
          simp [preEvs_cons, iterEvs_ok kw fr.isSome hread, framesRead_cons_ok pre hread,
            hres, hfun raw, List.append_assoc, List.singleton_append]
      · rw [List.cons_append, loopGo_cons_ok_nomatch kw it (pre ++ rest) fr raw hread (by omega),
          ih _ hpre]
        simp only [LoopOut.mk.injEq]
        refine ⟨?_, ?_, ?_⟩ <;>
          simp [preEvs_cons, iterEvs_ok kw fr.isSome hread, framesRead_cons_ok pre hread,
            hres, hfun raw, List.append_assoc, List.singleton_append]
    · exfalso; simp [continuesb, hread] at hit
    · exfalso; simp [continuesb, hread] at hit

/-! ## Shape of a session's result -/

/-- The events `run` emits after the loop stops: the stop notice on the
interrupt path, then the `finally` cleanup (nothing if the loop is still
running). -/
def exitTail (cfg : DemoConfig) (script : List Iteration) : List Event :=
  match (demoLoop cfg script).ex with
  | .exhausted => []
  | .interrupted =>
    Event.printMsg "Stopping ..." :: cleanupEvents cfg (demoLoop cfg script).frames
  | .streamError => cleanupEvents cfg (demoLoop cfg script).frames
  | .reactionError => cleanupEvents cfg (demoLoop cfg script).frames

theorem run_trace_eq (cfg : DemoConfig) (script : List Iteration) :
    (PorcupineDemo.run cfg script).trace =
      startEvs cfg ++ (demoLoop cfg script).evs ++ exitTail cfg script := by
  unfold PorcupineDemo.run exitTail
  rcases hex : (demoLoop cfg script).ex <;> simp [hex, List.append_assoc]

theorem run_frames_eq (cfg : DemoConfig) (script : List Iteration) :
    (PorcupineDemo.run cfg script).frames = (demoLoop cfg script).frames := by
  unfold PorcupineDemo.run
  rcases hex : (demoLoop cfg script).ex <;> simp [hex]

theorem run_outcome_eq (cfg : DemoConfig) (script : List Iteration) :
    (PorcupineDemo.run cfg script).outcome =
      (match (demoLoop cfg script).ex with
       | .exhausted => Outcome.running
       | .interrupted => Outcome.normal
       | .streamError => Outcome.raisedStreamError
       | .reactionError => Outcome.raisedReactionError) := by
  unfold PorcupineDemo.run
  rcases hex : (demoLoop cfg script).ex <;> simp [hex]

theorem cleanup_class (cfg : DemoConfig) (fr : Option (List Frame)) :
    ∀ e ∈ cleanupEvents cfg fr, isCleanupEvent e = true := by
  intro e he
  rcases hcp : cfg.output_path with _ | p <;> rcases fr with _ | fs <;>
    simp only [cleanupEvents, hcp, List.mem_cons, List.not_mem_nil, or_false] at he
  · rcases he with rfl | rfl | rfl <;> rfl
  · rcases he with rfl | rfl | rfl <;> rfl
  · rcases he with rfl | rfl | rfl <;> rfl
  · rcases he with rfl | rfl | rfl | he
    · rfl
    · rfl
    · rfl
    · split at he
      · simp only [List.mem_singleton] at he; subst he; rfl
      · simp at he

theorem exitTail_class (cfg : DemoConfig) (script : List Iteration) :
    ∀ e ∈ exitTail cfg script,
      isCleanupEvent e = true ∨ e = Event.printMsg "Stopping ..." := by
  intro e he
  unfold exitTail at he
  rcases hex : (demoLoop cfg script).ex <;> rw [hex] at he
  · rcases (List.mem_cons).mp he with rfl | he
    · right; rfl
    · left; exact cleanup_class cfg _ e he
  · left; exact cleanup_class cfg _ e he
  · left; exact cleanup_class cfg _ e he
  · simp at he

/-- Counting events of a kind that neither the banner, the stop notice, nor
the cleanup can emit reduces to counting them in the loop's own events. -/
theorem run_countP_loopish (cfg : DemoConfig) (script : List Iteration) {p : Event → Bool}
    (hstart : ∀ e, isStartEvent e = true → p e = false)
    (hclean : ∀ e, isCleanupEvent e = true → p e = false) :
    (PorcupineDemo.run cfg script).trace.countP p = (demoLoop cfg script).evs.countP p := by
  rw [run_trace_eq, List.countP_append, List.countP_append]
  have h1 : (startEvs cfg).countP p = 0 :=
    countP_eq_zero_of_class (startEvs_start cfg) hstart
  have h2 : (exitTail cfg script).countP p = 0 := by
    rw [List.countP_eq_zero]
    intro e he
    rcases exitTail_class cfg script e he with h | rfl
    · simp [hclean e h]
    · simp [hstart (Event.printMsg "Stopping ...") rfl]
  omega

/-- Write events occur only in the cleanup tail, and there they are exactly
what line 137-139 writes. -/
theorem run_filter_write (cfg : DemoConfig) (script : List Iteration) :
    (PorcupineDemo.run cfg script).trace.filter isWriteEvent =
      (exitTail cfg script).filter isWriteEvent := by
  rw [run_trace_eq, List.filter_append, List.filter_append]
  have h1 : (startEvs cfg).filter isWriteEvent = [] := by
    rw [List.filter_eq_nil_iff]
    intro e he
    have := startEvs_start cfg e he
    cases e <;> simp_all [isStartEvent, isWriteEvent]
  have h2 : (demoLoop cfg script).evs.filter isWriteEvent = [] := by
    rw [List.filter_eq_nil_iff]
    intro e he
    have := loopGo_evs_loop (demoKw cfg) script (initFrames cfg) e he
    cases e <;> simp_all [isLoopEvent, isWriteEvent]
  rw [h1, h2]
  rfl

theorem cleanup_filter_write (cfg : DemoConfig) (fr : Option (List Frame)) :
    (cleanupEvents cfg fr).filter isWriteEvent =
      (match cfg.output_path, fr with
       | some p, some fs =>
         if 0 < fs.length then
           [Event.writeFile p (astypeInt16 fs.flatten) cfg.sample_rate "PCM_16"]
         else []
       | _, _ => []) := by
  rcases hcp : cfg.output_path with _ | p <;> rcases fr with _ | fs <;>
    simp [cleanupEvents, hcp, isWriteEvent]

/-! ## Counting lemmas -/

theorem loopGo_nomatch_counts (kw : List String) (script : List Iteration)
    (fr : Option (List Frame)) (h : ∀ x ∈ script, x.result < 0) :
    (loopGo kw script fr).evs.countP isDetectEvent = 0 ∧
    (loopGo kw script fr).evs.countP isReactionEvent = 0 := by
  induction script generalizing fr with
  | nil => rw [loopGo_nil]; exact ⟨rfl, rfl⟩
  | cons it rest ih =>
    have hres : it.result < 0 := h it (by simp)
    have hrest : ∀ x ∈ rest, x.result < 0 := fun x hx => h x (by simp [hx])
    rcases hread : it.read with raw | _ | _
    · rw [loopGo_cons_ok_nomatch kw it rest fr raw hread hres]
      obtain ⟨ih1, ih2⟩ := ih (fr.map (· ++ [unpack_h raw])) hrest
      constructor <;> rcases fr with _ | fs <;>
        simp_all [List.countP_append, List.countP_cons, isDetectEvent, isReactionEvent]
    · rw [loopGo_cons_streamErr kw it rest fr hread]; exact ⟨rfl, rfl⟩
    · rw [loopGo_cons_interrupt kw it rest fr hread]; exact ⟨rfl, rfl⟩

theorem loopGo_none_no_append (kw : List String) (script : List Iteration) :
    (loopGo kw script none).frames = none ∧
    (loopGo kw script none).evs.countP isAppendEvent = 0 := by
  induction script with
  | nil => rw [loopGo_nil]; exact ⟨rfl, rfl⟩
  | cons it rest ih =>
    rcases hread : it.read with raw | _ | _
    · by_cases hres : 0 ≤ it.result
      · by_cases hok : it.reactionOk = true
        · rw [loopGo_cons_ok_match kw it rest none raw hread hres hok]
          obtain ⟨ih1, ih2⟩ := ih
          constructor
          · simpa using ih1
          · simp_all [List.countP_append, List.countP_cons, isAppendEvent]
        · rw [loopGo_cons_ok_reactionFail kw it rest none raw hread hres
            (Bool.not_eq_true _ ▸ hok)]
          constructor
          · simp
          · simp [List.countP_append, List.countP_cons, isAppendEvent]
      · rw [loopGo_cons_ok_nomatch kw it rest none raw hread (by omega)]
        obtain ⟨ih1, ih2⟩ := ih
        constructor
        · simpa using ih1
        · simp_all [List.countP_append, List.countP_cons, isAppendEvent]
    · rw [loopGo_cons_streamErr kw it rest none hread]; exact ⟨rfl, rfl⟩
    · rw [loopGo_cons_interrupt kw it rest none hread]; exact ⟨rfl, rfl⟩

theorem preEvs_countP_read (kw : List String) (b : Bool) (pre : List Iteration)
    (h : ∀ x ∈ pre, continuesb x = true) :
    (preEvs kw b pre).countP isReadEvent = pre.length := by
  induction pre with
  | nil => rfl
  | cons it pre ih =>
    have hit := h it (by simp)
    have hpre : ∀ x ∈ pre, continuesb x = true := fun x hx => h x (by simp [hx])
    rcases hread : it.read with raw | _ | _
    · rw [preEvs_cons, List.countP_append, iterEvs_ok kw b hread, ih hpre]
      cases b <;> by_cases hres : 0 ≤ it.result <;>
        simp [List.countP_cons, List.countP_append, isReadEvent, hres, List.length_cons] <;>
        omega
    · exfalso; simp [continuesb, hread] at hit
    · exfalso; simp [continuesb, hread] at hit

theorem preEvs_countP_detect_zero (kw : List String) (b : Bool) (pre : List Iteration)
    (h : ∀ x ∈ pre, x.result < 0) :
    (preEvs kw b pre).countP isDetectEvent = 0 := by
  induction pre with
  | nil => rfl
  | cons it pre ih =>
    have hres : it.result < 0 := h it (by simp)
    have hpre : ∀ x ∈ pre, x.result < 0 := fun x hx => h x (by simp [hx])
    rw [preEvs_cons, List.countP_append, ih hpre]
    rcases hread : it.read with raw | _ | _
    · rw [iterEvs_ok kw b hread]
      cases b <;>
        simp [List.countP_cons, List.countP_append, isDetectEvent, not_le.mpr hres]
    · simp [iterEvs, hread]
    · simp [iterEvs, hread]

theorem start_not_detect : ∀ e, isStartEvent e = true → isDetectEvent e = false := by
  intro e; cases e <;> simp [isStartEvent, isDetectEvent]

theorem start_not_reaction : ∀ e, isStartEvent e = true → isReactionEvent e = false := by
  intro e; cases e <;> simp [isStartEvent, isReactionEvent]

theorem start_not_read : ∀ e, isStartEvent e = true → isReadEvent e = false := by
  intro e; cases e <;> simp [isStartEvent, isReadEvent]

theorem start_not_append : ∀ e, isStartEvent e = true → isAppendEvent e = false := by
  intro e; cases e <;> simp [isStartEvent, isAppendEvent]

theorem cleanup_not_detect : ∀ e, isCleanupEvent e = true → isDetectEvent e = false := by
  intro e; cases e <;> simp [isCleanupEvent, isDetectEvent]

theorem cleanup_not_reaction : ∀ e, isCleanupEvent e = true → isReactionEvent e = false := by
  intro e; cases e <;> simp [isCleanupEvent, isReactionEvent]

theorem cleanup_not_read : ∀ e, isCleanupEvent e = true → isReadEvent e = false := by
  intro e; cases e <;> simp [isCleanupEvent, isReadEvent]

theorem cleanup_not_append : ∀ e, isCleanupEvent e = true → isAppendEvent e = false := by
  intro e; cases e <;> simp [isCleanupEvent, isAppendEvent]

theorem cleanup_countP_release (cfg : DemoConfig) (fr : Option (List Frame)) :
    (cleanupEvents cfg fr).countP isReleaseDetectorEvent = 1 := by
  rcases hcp : cfg.output_path with _ | p <;> rcases fr with _ | fs <;>
    simp [cleanupEvents, hcp, isReleaseDetectorEvent, List.countP_cons]

theorem cleanup_countP_close (cfg : DemoConfig) (fr : Option (List Frame)) :
    (cleanupEvents cfg fr).countP isCloseStreamEvent = 1 := by
  rcases hcp : cfg.output_path with _ | p <;> rcases fr with _ | fs <;>
    simp [cleanupEvents, hcp, isCloseStreamEvent, List.countP_cons]

theorem exitTail_countP_release (cfg : DemoConfig) (script : List Iteration)
    (h : (demoLoop cfg script).ex ≠ .exhausted) :
    (exitTail cfg script).countP isReleaseDetectorEvent = 1 := by
  unfold exitTail
  rcases hex : (demoLoop cfg script).ex <;>
    simp [hex, List.countP_cons, isReleaseDetectorEvent, cleanup_countP_release]
  exact h hex

theorem exitTail_countP_close (cfg : DemoConfig) (script : List Iteration)
    (h : (demoLoop cfg script).ex ≠ .exhausted) :
    (exitTail cfg script).countP isCloseStreamEvent = 1 := by
  unfold exitTail
  rcases hex : (demoLoop cfg script).ex <;>
    simp [hex, List.countP_cons, isCloseStreamEvent, cleanup_countP_close]
  exact h hex

theorem run_countP_release (cfg : DemoConfig) (script : List Iteration)
    (h : (demoLoop cfg script).ex ≠ .exhausted) :
    (PorcupineDemo.run cfg script).trace.countP isReleaseDetectorEvent = 1 := by
  rw [run_trace_eq, List.countP_append, List.countP_append]
  have h1 : (startEvs cfg).countP isReleaseDetectorEvent = 0 :=
    countP_eq_zero_of_class (startEvs_start cfg)
      (by intro e; cases e <;> simp [isStartEvent, isReleaseDetectorEvent])
  have h2 : (demoLoop cfg script).evs.countP isReleaseDetectorEvent = 0 :=
    countP_eq_zero_of_class (loopGo_evs_loop (demoKw cfg) script (initFrames cfg))
      (by intro e; cases e <;> simp [isLoopEvent, isReleaseDetectorEvent])
  rw [h1, h2, exitTail_countP_release cfg script h]

theorem run_countP_close (cfg : DemoConfig) (script : List Iteration)
    (h : (demoLoop cfg script).ex ≠ .exhausted) :
    (PorcupineDemo.run cfg script).trace.countP isCloseStreamEvent = 1 := by
  rw [run_trace_eq, List.countP_append, List.countP_append]
  have h1 : (startEvs cfg).countP isCloseStreamEvent = 0 :=
    countP_eq_zero_of_class (startEvs_start cfg)
      (by intro e; cases e <;> simp [isStartEvent, isCloseStreamEvent])
  have h2 : (demoLoop cfg script).evs.countP isCloseStreamEvent = 0 :=
    countP_eq_zero_of_class (loopGo_evs_loop (demoKw cfg) script (initFrames cfg))
      (by intro e; cases e <;> simp [isLoopEvent, isCloseStreamEvent])
  rw [h1, h2, exitTail_countP_close cfg script h]

/-- A sample recording-enabled configuration for concrete witnesses. -/
def sampleCfgRec : DemoConfig := ⟨["kw/porcupine_linux.ppn"], [1/2], 16000, some "out.wav"⟩

/-- A sample configuration without recording for concrete witnesses. -/
def sampleCfgNoRec : DemoConfig := ⟨["kw/porcupine_linux.ppn"], [1/2], 16000, none⟩

/-! ## Claims -/

/-- Claim C5: if the detector returns the NO_MATCH sentinel (a negative
result) for every frame, then over any number of loop iterations no
detection is printed and the reaction callback is never invoked. -/
theorem C5_no_match_no_reactions (cfg : DemoConfig) (script : List Iteration)
    (h : ∀ x ∈ script, x.result < 0) :
    (PorcupineDemo.run cfg script).trace.countP isDetectEvent = 0 ∧
    (PorcupineDemo.run cfg script).trace.countP isReactionEvent = 0 := by
  constructor
  · rw [run_countP_loopish cfg script start_not_detect cleanup_not_detect]
    exact (loopGo_nomatch_counts (demoKw cfg) script (initFrames cfg) h).1
  · rw [run_countP_loopish cfg script start_not_reaction cleanup_not_reaction]
    exact (loopGo_nomatch_counts (demoKw cfg) script (initFrames cfg) h).2

/-- Witness for C5: a three-iteration all-NO_MATCH session (ending in an
interrupt) has no detection and no reaction events. -/
theorem C5_no_match_no_reactions_witness :
    (∀ x ∈ ([⟨.ok [1, 2], -1, true⟩, ⟨.ok [3], -1, true⟩,
        ⟨.interrupt, -1, true⟩] : List Iteration), x.result < 0) ∧
    ((PorcupineDemo.run sampleCfgRec [⟨.ok [1, 2], -1, true⟩, ⟨.ok [3], -1, true⟩,
        ⟨.interrupt, -1, true⟩]).trace.countP isDetectEvent = 0 ∧
      (PorcupineDemo.run sampleCfgRec [⟨.ok [1, 2], -1, true⟩, ⟨.ok [3], -1, true⟩,
        ⟨.interrupt, -1, true⟩]).trace.countP isReactionEvent = 0) :=
  ⟨by decide, C5_no_match_no_reactions sampleCfgRec _ (by decide)⟩

/-- Claim C10: with `output_path = None` no frame buffer is ever created
(`_recorded_frames` stays absent), no frame is appended on any iteration,
and no recording file is written on any exit path. -/
theorem C10_no_output_path_no_recording (cfg : DemoConfig) (script : List Iteration)
    (h : cfg.output_path = none) :
    (PorcupineDemo.run cfg script).frames = none ∧
    (PorcupineDemo.run cfg script).trace.countP isAppendEvent = 0 ∧
    (PorcupineDemo.run cfg script).trace.countP isWriteEvent = 0 := by
  have hinit : initFrames cfg = none := by simp [initFrames, h]
  refine ⟨?_, ?_, ?_⟩
  · rw [run_frames_eq]
    unfold demoLoop
    rw [hinit]
    exact (loopGo_none_no_append (demoKw cfg) script).1
  · rw [run_countP_loopish cfg script start_not_append cleanup_not_append]
    unfold demoLoop
    rw [hinit]
    exact (loopGo_none_no_append (demoKw cfg) script).2
  · have := run_filter_write cfg script
    have hw : (exitTail cfg script).filter isWriteEvent = [] := by
      unfold exitTail
      rcases hex : (demoLoop cfg script).ex <;>
        simp [hex, cleanup_filter_write, h, isWriteEvent]
    rw [List.countP_eq_length_filter, this, hw]
    rfl

/-- Witness for C10: a no-recording session that reads a matching frame and
one more frame, then hits a stream error. -/
theorem C10_no_output_path_no_recording_witness :
    sampleCfgNoRec.output_path = none ∧
    ((PorcupineDemo.run sampleCfgNoRec [⟨.ok [7], 0, true⟩, ⟨.ok [8], -1, true⟩,
        ⟨.streamErr, -1, true⟩]).frames = none ∧
      (PorcupineDemo.run sampleCfgNoRec [⟨.ok [7], 0, true⟩, ⟨.ok [8], -1, true⟩,
        ⟨.streamErr, -1, true⟩]).trace.countP isAppendEvent = 0 ∧
      (PorcupineDemo.run sampleCfgNoRec [⟨.ok [7], 0, true⟩, ⟨.ok [8], -1, true⟩,
        ⟨.streamErr, -1, true⟩]).trace.countP isWriteEvent = 0) :=
  ⟨rfl, C10_no_output_path_no_recording sampleCfgNoRec _ rfl⟩

/-- Claim C6: when the number of keyword model paths differs from the number
of (explicitly provided) sensitivity values, the program raises the
`ValueError` of lines 288-289 during validation: no session starts, no
device is opened, and no event at all is performed. -/
theorem C6_count_mismatch_fails_before_acquisition (a : Args) (script : List Iteration)
    {kp : List String} {ss : List Rat} (hshow : a.show_audio_devices = false)
    (hkp : resolveKeywordPaths a = .ok kp) (hss : a.sensitivities = some ss)
    (hne : kp.length ≠ ss.length) :
    programRun a script =
      ([], .configError "Number of keywords does not match the number of sensitivities.") := by
  unfold programRun mainLogic
  simp [hshow, hkp, hss, hne]

/-- Arguments with two keyword paths but one sensitivity. -/
def argsMismatch : Args := ⟨none, some ["a.ppn", "b.ppn"], some [1/2], none, false⟩

/-- Witness for C6: two keyword paths against one sensitivity fail with the
`ValueError` message and an empty event trace. -/
theorem C6_count_mismatch_fails_before_acquisition_witness :
    (argsMismatch.show_audio_devices = false ∧
      resolveKeywordPaths argsMismatch = .ok ["a.ppn", "b.ppn"] ∧
      argsMismatch.sensitivities = some [1/2] ∧
      (["a.ppn", "b.ppn"] : List String).length ≠ ([1/2] : List Rat).length) ∧
    programRun argsMismatch [] =
      ([], .configError "Number of keywords does not match the number of sensitivities.") :=
  ⟨⟨rfl, rfl, rfl, by decide⟩,
    C6_count_mismatch_fails_before_acquisition argsMismatch [] rfl rfl rfl (by decide)⟩

/-- A script whose first frame matches and whose reaction pipeline raises,
with a second frame available behind it. -/
def reactionFailScript : List Iteration := [⟨.ok [0], 0, false⟩, ⟨.ok [0], -1, true⟩]

/-- Claim C8 (what the code actually does): a reaction-pipeline failure on
the first detected frame terminates the session — the exception propagates
(after cleanup) and the second available frame is never read.  This
contradicts the claim (and spec §6/§8), which demand that detection keep
running; the spec's own design note marks the unguarded call at
lines 119-123 as the bug. -/
theorem C8_reaction_failure_terminates_loop :
    (PorcupineDemo.run sampleCfgNoRec reactionFailScript).outcome = .raisedReactionError ∧
    (PorcupineDemo.run sampleCfgNoRec reactionFailScript).trace.countP isReadEvent = 1 := by
  decide

/-- Claim C9: with recording enabled, a session in which zero frames were
appended (interrupted before the first read completes) writes no file at
all and still completes successfully. -/
theorem C9_empty_recording_no_write (cfg : DemoConfig) (p : String) (it : Iteration)
    (rest : List Iteration) (hout : cfg.output_path = some p) (hit : it.read = .interrupt) :
    (PorcupineDemo.run cfg (it :: rest)).trace.countP isWriteEvent = 0 ∧
    (PorcupineDemo.run cfg (it :: rest)).outcome = .normal := by
  have hloop : demoLoop cfg (it :: rest) = ⟨[], initFrames cfg, .interrupted⟩ := by
    unfold demoLoop
    exact loopGo_cons_interrupt _ _ _ _ hit
  constructor
  · rw [List.countP_eq_length_filter, run_filter_write]
    have hw : (exitTail cfg (it :: rest)).filter isWriteEvent = [] := by
      unfold exitTail
      rw [hloop]
      simp [cleanup_filter_write, hout, initFrames, isWriteEvent]
    rw [hw]
    rfl
  · rw [run_outcome_eq, hloop]

/-- Witness for C9: a recording-enabled session interrupted immediately. -/
theorem C9_empty_recording_no_write_witness :
    (sampleCfgRec.output_path = some "out.wav" ∧
      (⟨.interrupt, -1, true⟩ : Iteration).read = .interrupt) ∧
    ((PorcupineDemo.run sampleCfgRec [⟨.interrupt, -1, true⟩]).trace.countP isWriteEvent = 0 ∧
      (PorcupineDemo.run sampleCfgRec [⟨.interrupt, -1, true⟩]).outcome = .normal) :=
  ⟨⟨rfl, rfl⟩, C9_empty_recording_no_write sampleCfgRec "out.wav" _ [] rfl rfl⟩

theorem start_not_cleanup : ∀ e, isStartEvent e = true → isCleanupEvent e = false := by
  intro e; cases e <;> simp [isStartEvent, isCleanupEvent]

theorem loop_not_cleanup : ∀ e, isLoopEvent e = true → isCleanupEvent e = false := by
  intro e; cases e <;> simp [isLoopEvent, isCleanupEvent]

theorem iterEvs_all_loop (kw : List String) (b : Bool) (it : Iteration) :
    (iterEvs kw b it).all isLoopEvent = true := by
  rcases hread : it.read with raw | _ | _
  · rw [iterEvs_ok kw b hread]
    cases b <;> by_cases hres : 0 ≤ it.result <;> simp [isLoopEvent, hres]
  · simp [iterEvs, hread]
  · simp [iterEvs, hread]

theorem preEvs_all_loop (kw : List String) (b : Bool) (pre : List Iteration) :
    ∀ e ∈ preEvs kw b pre, isLoopEvent e = true := by
  induction pre with
  | nil => intro e he; simp [preEvs_nil] at he
  | cons it pre ih =>
    intro e he
    rw [preEvs_cons] at he
    rcases List.mem_append.mp he with he | he
    · exact List.all_eq_true.mp (iterEvs_all_loop kw b it) e he
    · exact ih e he

theorem demoLoop_pre_streamErr (cfg : DemoConfig) (pre : List Iteration) (it : Iteration)
    (rest : List Iteration) (hpre : ∀ x ∈ pre, continuesb x = true)
    (hit : it.read = .streamErr) :
    demoLoop cfg (pre ++ it :: rest) =
      ⟨preEvs (demoKw cfg) (initFrames cfg).isSome pre,
        (initFrames cfg).map (· ++ framesRead pre), .streamError⟩ := by
  unfold demoLoop
  rw [loopGo_append (demoKw cfg) pre (it :: rest) (initFrames cfg) hpre,
    loopGo_cons_streamErr (demoKw cfg) it rest _ hit]
  simp

theorem demoLoop_pre_interrupt (cfg : DemoConfig) (pre : List Iteration) (it : Iteration)
    (rest : List Iteration) (hpre : ∀ x ∈ pre, continuesb x = true)
    (hit : it.read = .interrupt) :
    demoLoop cfg (pre ++ it :: rest) =
      ⟨preEvs (demoKw cfg) (initFrames cfg).isSome pre,
        (initFrames cfg).map (· ++ framesRead pre), .interrupted⟩ := by
  unfold demoLoop
  rw [loopGo_append (demoKw cfg) pre (it :: rest) (initFrames cfg) hpre,
    loopGo_cons_interrupt (demoKw cfg) it rest _ hit]
  simp

/-- Claim C2: a stream error on the M-th read makes the session clean up in
full — the detector is released once, the stream is closed once, and, when
recording is enabled, exactly the M-1 frames read so far are written (no
file at all when none were) — and the error propagates to the caller. -/
theorem C2_streamError_cleanup_propagates (cfg : DemoConfig) (pre : List Iteration)
    (it : Iteration) (rest : List Iteration) (hpre : ∀ x ∈ pre, continuesb x = true)
    (hit : it.read = .streamErr) :
    (PorcupineDemo.run cfg (pre ++ it :: rest)).outcome = .raisedStreamError ∧
    (PorcupineDemo.run cfg (pre ++ it :: rest)).trace.countP isReleaseDetectorEvent = 1 ∧
    (PorcupineDemo.run cfg (pre ++ it :: rest)).trace.countP isCloseStreamEvent = 1 ∧
    (PorcupineDemo.run cfg (pre ++ it :: rest)).trace.filter isWriteEvent =
      (match cfg.output_path with
       | some p =>
         if framesRead pre = [] then []
         else [Event.writeFile p (astypeInt16 (framesRead pre).flatten)
             cfg.sample_rate "PCM_16"]
       | none => []) := by
  have hloop := demoLoop_pre_streamErr cfg pre it rest hpre hit
  refine ⟨?_, ?_, ?_, ?_⟩
  · rw [run_outcome_eq, hloop]
  · exact run_countP_release cfg _ (by rw [hloop]; simp)
  · exact run_countP_close cfg _ (by rw [hloop]; simp)
  · rw [run_filter_write]
    unfold exitTail
    rw [hloop]
    rw [show (⟨preEvs (demoKw cfg) (initFrames cfg).isSome pre,
        (initFrames cfg).map (· ++ framesRead pre), .streamError⟩ : LoopOut).ex =
        .streamError from rfl]
    rw [cleanup_filter_write]
    rcases hout : cfg.output_path with _ | p
    · simp [initFrames, hout]
    · simp only [initFrames, hout, Option.isSome_some, if_true, Option.map_some,
        List.nil_append]
      rcases hfp : framesRead pre with _ | ⟨f, fs⟩ <;> simp

/-- Witness for C2: one good frame, then a stream error; the partial
one-frame recording is written and the error propagates. -/
theorem C2_streamError_cleanup_propagates_witness :
    ((∀ x ∈ ([⟨.ok [1, 2], -1, true⟩] : List Iteration), continuesb x = true) ∧
      (⟨.streamErr, -1, true⟩ : Iteration).read = .streamErr) ∧
    ((PorcupineDemo.run sampleCfgRec
        ([⟨.ok [1, 2], -1, true⟩] ++ [⟨.streamErr, -1, true⟩])).outcome =
        .raisedStreamError ∧
      (PorcupineDemo.run sampleCfgRec
        ([⟨.ok [1, 2], -1, true⟩] ++ [⟨.streamErr, -1, true⟩])).trace.countP
          isReleaseDetectorEvent = 1 ∧
      (PorcupineDemo.run sampleCfgRec
        ([⟨.ok [1, 2], -1, true⟩] ++ [⟨.streamErr, -1, true⟩])).trace.countP
          isCloseStreamEvent = 1 ∧
      (PorcupineDemo.run sampleCfgRec
        ([⟨.ok [1, 2], -1, true⟩] ++ [⟨.streamErr, -1, true⟩])).trace.filter isWriteEvent =
        (match sampleCfgRec.output_path with
         | some p =>
           if framesRead [⟨.ok [1, 2], -1, true⟩] = [] then []
           else [Event.writeFile p
               (astypeInt16 (framesRead [⟨.ok [1, 2], -1, true⟩]).flatten)
               sampleCfgRec.sample_rate "PCM_16"]
         | none => [])) :=
  ⟨⟨by decide, rfl⟩,
    C2_streamError_cleanup_propagates sampleCfgRec [⟨.ok [1, 2], -1, true⟩]
      ⟨.streamErr, -1, true⟩ [] (by decide) rfl⟩

/-- Claim C7: a `KeyboardInterrupt` between frame reads is a graceful stop,
not an error: the session returns normally, prints the stop notice, reads no
further frame, and runs exactly the one cleanup path (detector released
once, stream closed once, then the `finally` finalization — including the
recording write when enabled — with nothing cleanup-like before it). -/
theorem C7_interrupt_graceful_cleanup (cfg : DemoConfig) (pre : List Iteration)
    (it : Iteration) (rest : List Iteration) (hpre : ∀ x ∈ pre, continuesb x = true)
    (hit : it.read = .interrupt) :
    (PorcupineDemo.run cfg (pre ++ it :: rest)).outcome = .normal ∧
    Event.printMsg "Stopping ..." ∈ (PorcupineDemo.run cfg (pre ++ it :: rest)).trace ∧
    (PorcupineDemo.run cfg (pre ++ it :: rest)).trace.countP isReadEvent = pre.length ∧
    (PorcupineDemo.run cfg (pre ++ it :: rest)).trace.countP isReleaseDetectorEvent = 1 ∧
    (PorcupineDemo.run cfg (pre ++ it :: rest)).trace.countP isCloseStreamEvent = 1 ∧
    ∃ t, (PorcupineDemo.run cfg (pre ++ it :: rest)).trace =
        t ++ cleanupEvents cfg (PorcupineDemo.run cfg (pre ++ it :: rest)).frames ∧
      ∀ e ∈ t, isCleanupEvent e = false := by
  have hloop := demoLoop_pre_interrupt cfg pre it rest hpre hit
  refine ⟨?_, ?_, ?_, ?_, ?_, ?_⟩
  · rw [run_outcome_eq, hloop]
  · rw [run_trace_eq]
    unfold exitTail
    rw [hloop]
    simp
  · rw [run_countP_loopish cfg _ start_not_read cleanup_not_read, hloop]
    exact preEvs_countP_read (demoKw cfg) (initFrames cfg).isSome pre hpre
  · exact run_countP_release cfg _ (by rw [hloop]; simp)
  · exact run_countP_close cfg _ (by rw [hloop]; simp)
  · refine ⟨startEvs cfg ++ preEvs (demoKw cfg) (initFrames cfg).isSome pre ++
      [Event.printMsg "Stopping ..."], ?_, ?_⟩
    · rw [run_trace_eq, run_frames_eq]
      unfold exitTail
      rw [hloop]
      simp [List.append_assoc]
    · intro e he
      simp only [List.mem_append, List.mem_singleton] at he
      rcases he with (he | he) | rfl
      · exact start_not_cleanup e (startEvs_start cfg e he)
      · exact loop_not_cleanup e (preEvs_all_loop (demoKw cfg) (initFrames cfg).isSome pre e he)
      · rfl

/-- Witness for C7: one good no-match frame, then an interrupt. -/
theorem C7_interrupt_graceful_cleanup_witness :
    ((∀ x ∈ ([⟨.ok [4], -1, true⟩] : List Iteration), continuesb x = true) ∧
      (⟨.interrupt, -1, true⟩ : Iteration).read = .interrupt) ∧
    ((PorcupineDemo.run sampleCfgRec
        ([⟨.ok [4], -1, true⟩] ++ [⟨.interrupt, -1, true⟩])).outcome = .normal ∧
      Event.printMsg "Stopping ..." ∈
        (PorcupineDemo.run sampleCfgRec
          ([⟨.ok [4], -1, true⟩] ++ [⟨.interrupt, -1, true⟩])).trace ∧
      (PorcupineDemo.run sampleCfgRec
        ([⟨.ok [4], -1, true⟩] ++ [⟨.interrupt, -1, true⟩])).trace.countP isReadEvent =
        ([⟨.ok [4], -1, true⟩] : List Iteration).length ∧
      (PorcupineDemo.run sampleCfgRec
        ([⟨.ok [4], -1, true⟩] ++ [⟨.interrupt, -1, true⟩])).trace.countP
          isReleaseDetectorEvent = 1 ∧
      (PorcupineDemo.run sampleCfgRec
        ([⟨.ok [4], -1, true⟩] ++ [⟨.interrupt, -1, true⟩])).trace.countP
          isCloseStreamEvent = 1 ∧
      ∃ t, (PorcupineDemo.run sampleCfgRec
          ([⟨.ok [4], -1, true⟩] ++ [⟨.interrupt, -1, true⟩])).trace =
          t ++ cleanupEvents sampleCfgRec
            (PorcupineDemo.run sampleCfgRec
              ([⟨.ok [4], -1, true⟩] ++ [⟨.interrupt, -1, true⟩])).frames ∧
        ∀ e ∈ t, isCleanupEvent e = false) :=
  ⟨⟨by decide, rfl⟩,
    C7_interrupt_graceful_cleanup sampleCfgRec [⟨.ok [4], -1, true⟩]
      ⟨.interrupt, -1, true⟩ [] (by decide) rfl⟩

theorem rawFrames_cons_ok {it : Iteration} {raw : Frame} (pre : List Iteration)
    (h : it.read = .ok raw) : rawFrames (it :: pre) = raw :: rawFrames pre := by
  obtain ⟨rd, res, rok⟩ := it
  simp only [Iteration.read] at h
  subst h
  rfl

theorem framesRead_eq_raw (pre : List Iteration)
    (hpre : ∀ x ∈ pre, continuesb x = true)
    (hwf : ∀ x ∈ pre, ∀ raw, x.read = .ok raw → int16Frame raw = true) :
    framesRead pre = rawFrames pre := by
  induction pre with
  | nil => rfl
  | cons it pre ih =>
    have hit := hpre it (by simp)
    rcases hread : it.read with raw | _ | _
    · rw [framesRead_cons_ok pre hread, rawFrames_cons_ok pre hread,
        unpack_h_of_int16 (hwf it (by simp) raw hread),
        ih (fun x hx => hpre x (by simp [hx])) (fun x hx r hr => hwf x (by simp [hx]) r hr)]
    · exfalso; simp [continuesb, hread] at hit
    · exfalso; simp [continuesb, hread] at hit

theorem rawFrames_flatten_int16 (pre : List Iteration)
    (hwf : ∀ x ∈ pre, ∀ raw, x.read = .ok raw → int16Frame raw = true) :
    ((rawFrames pre).flatten).all int16Sample = true := by
  rw [List.all_eq_true]
  intro s hs
  rcases List.mem_flatten.mp hs with ⟨f, hf, hsf⟩
  rcases List.mem_filterMap.mp hf with ⟨x, hx, hfx⟩
  have hread : x.read = .ok f := by
    rcases hr : x.read with raw | _ | _ <;> rw [hr] at hfx <;> simp at hfx
    rw [hfx]
  have := hwf x hx f hread
  rw [int16Frame, List.all_eq_true] at this
  exact this s hsf

/-- Claim C3: in a recording-enabled session, the finalized recording is
exactly the concatenation, in arrival order and sample for sample, of the
frames the source delivered, written as PCM_16 at the session's sample
rate (the session here ending with a graceful stop). -/
theorem C3_recording_is_concatenation (cfg : DemoConfig) (p : String)
    (pre : List Iteration) (it : Iteration) (rest : List Iteration)
    (hout : cfg.output_path = some p)
    (hpre : ∀ x ∈ pre, continuesb x = true)
    (hwf : ∀ x ∈ pre, ∀ raw, x.read = .ok raw → int16Frame raw = true)
    (hit : it.read = .interrupt)
    (hne : rawFrames pre ≠ []) :
    (PorcupineDemo.run cfg (pre ++ it :: rest)).trace.filter isWriteEvent =
      [Event.writeFile p ((rawFrames pre).flatten) cfg.sample_rate "PCM_16"] ∧
    (PorcupineDemo.run cfg (pre ++ it :: rest)).outcome = .normal := by
  have hloop := demoLoop_pre_interrupt cfg pre it rest hpre hit
  have heq : framesRead pre = rawFrames pre := framesRead_eq_raw pre hpre hwf
  constructor
  · rw [run_filter_write]
    unfold exitTail
    rw [hloop]
    have hast : astypeInt16 ((rawFrames pre).flatten) = (rawFrames pre).flatten :=
      astypeInt16_of_int16 (rawFrames_flatten_int16 pre hwf)
    simp [cleanup_filter_write, hout, initFrames, isWriteEvent, heq, hast, hne,
      List.length_pos]
  · rw [run_outcome_eq, hloop]

/-- Witness for C3: two frames, then an interrupt; the written samples are
exactly the two frames concatenated. -/
theorem C3_recording_is_concatenation_witness :
    (sampleCfgRec.output_path = some "out.wav" ∧
      (∀ x ∈ ([⟨.ok [1, -2], -1, true⟩, ⟨.ok [3], -1, true⟩] : List Iteration),
        continuesb x = true) ∧
      (∀ x ∈ ([⟨.ok [1, -2], -1, true⟩, ⟨.ok [3], -1, true⟩] : List Iteration),
        ∀ raw, x.read = .ok raw → int16Frame raw = true) ∧
      (⟨.interrupt, -1, true⟩ : Iteration).read = .interrupt ∧
      rawFrames [⟨.ok [1, -2], -1, true⟩, ⟨.ok [3], -1, true⟩] ≠ []) ∧
    ((PorcupineDemo.run sampleCfgRec
        ([⟨.ok [1, -2], -1, true⟩, ⟨.ok [3], -1, true⟩] ++
          [⟨.interrupt, -1, true⟩])).trace.filter isWriteEvent =
      [Event.writeFile "out.wav"
          ((rawFrames [⟨.ok [1, -2], -1, true⟩, ⟨.ok [3], -1, true⟩]).flatten)
          sampleCfgRec.sample_rate "PCM_16"] ∧
      (PorcupineDemo.run sampleCfgRec
        ([⟨.ok [1, -2], -1, true⟩, ⟨.ok [3], -1, true⟩] ++
          [⟨.interrupt, -1, true⟩])).outcome = .normal) :=
  ⟨⟨rfl, by decide,
      by
        intro x hx raw hr
        simp only [List.mem_cons, List.not_mem_nil, or_false] at hx
        rcases hx with rfl | rfl <;> (injection hr with h; subst h; decide),
      rfl, by decide⟩,
    C3_recording_is_concatenation sampleCfgRec "out.wav"
      [⟨.ok [1, -2], -1, true⟩, ⟨.ok [3], -1, true⟩] ⟨.interrupt, -1, true⟩ []
      rfl (by decide)
      (by
        intro x hx raw hr
        simp only [List.mem_cons, List.not_mem_nil, or_false] at hx
        rcases hx with rfl | rfl <;> (injection hr with h; subst h; decide))
      rfl (by decide)⟩

theorem preEvs_countP_reaction_zero (kw : List String) (b : Bool) (pre : List Iteration)
    (h : ∀ x ∈ pre, x.result < 0) :
    (preEvs kw b pre).countP isReactionEvent = 0 := by
  induction pre with
  | nil => rfl
  | cons it pre ih =>
    have hres : it.result < 0 := h it (by simp)
    have hpre : ∀ x ∈ pre, x.result < 0 := fun x hx => h x (by simp [hx])
    rw [preEvs_cons, List.countP_append, ih hpre]
    rcases hread : it.read with raw | _ | _
    · rw [iterEvs_ok kw b hread]
      cases b <;>
        simp [List.countP_cons, List.countP_append, isReactionEvent, not_le.mpr hres]
    · simp [iterEvs, hread]
    · simp [iterEvs, hread]

theorem exitTail_countP_zero (cfg : DemoConfig) (script : List Iteration) {p : Event → Bool}
    (hstart : ∀ e, isStartEvent e = true → p e = false)
    (hclean : ∀ e, isCleanupEvent e = true → p e = false) :
    (exitTail cfg script).countP p = 0 := by
  rw [List.countP_eq_zero]
  intro e he
  rcases exitTail_class cfg script e he with h | rfl
  · simp [hclean e h]
  · simp [hstart (Event.printMsg "Stopping ...") rfl]

/-- Claim C4: if the detector matches on frame K (and on no other frame of
the session), exactly one detection is printed and exactly one reaction runs;
the detection print and the reaction sit, synchronously and adjacently, in
the trace after the K-th completed frame read and before any further read. -/
theorem C4_single_detection_between_reads (cfg : DemoConfig) (pre : List Iteration)
    (itK : Iteration) (raw : Frame) (post : List Iteration)
    (hpre : ∀ x ∈ pre, (∃ r, x.read = .ok r) ∧ x.result < 0)
    (hK : itK.read = .ok raw) (hKres : 0 ≤ itK.result) (hKok : itK.reactionOk = true)
    (hpost : ∀ x ∈ post, x.result < 0) :
    (PorcupineDemo.run cfg (pre ++ itK :: post)).trace.countP isDetectEvent = 1 ∧
    (PorcupineDemo.run cfg (pre ++ itK :: post)).trace.countP isReactionEvent = 1 ∧
    ∃ t1 t2,
      (PorcupineDemo.run cfg (pre ++ itK :: post)).trace =
        t1 ++ Event.detectPrint ((demoKw cfg).getD itK.result.toNat "") ::
          Event.reactionRun :: t2 ∧
      t1.countP isReadEvent = pre.length + 1 ∧
      t1.countP isDetectEvent = 0 ∧
      t2.countP isDetectEvent = 0 := by
  have hpre' : ∀ x ∈ pre, continuesb x = true := by
    intro x hx
    obtain ⟨⟨r, hr⟩, hneg⟩ := hpre x hx
    simp [continuesb, hr, hneg]
  have hloop : demoLoop cfg (pre ++ itK :: post) =
      ⟨preEvs (demoKw cfg) (initFrames cfg).isSome pre ++
          ((Event.readFrame (unpack_h raw) ::
            ((if (initFrames cfg).isSome then [Event.appendFrame (unpack_h raw)] else []) ++
              [Event.processFrame (unpack_h raw)]) ++
            [Event.detectPrint ((demoKw cfg).getD itK.result.toNat "")]) ++
            Event.reactionRun ::
              (loopGo (demoKw cfg) post
                (((initFrames cfg).map (· ++ framesRead pre)).map
                  (· ++ [unpack_h raw]))).evs),
        (loopGo (demoKw cfg) post
          (((initFrames cfg).map (· ++ framesRead pre)).map (· ++ [unpack_h raw]))).frames,
        (loopGo (demoKw cfg) post
          (((initFrames cfg).map (· ++ framesRead pre)).map (· ++ [unpack_h raw]))).ex⟩ := by
    unfold demoLoop
    rw [loopGo_append (demoKw cfg) pre (itK :: post) (initFrames cfg) hpre',
      loopGo_cons_ok_match (demoKw cfg) itK post _ raw hK hKres hKok]
    simp [((initFrames cfg).map (· ++ framesRead pre)).isSome_map]
  have hevs := congrArg LoopOut.evs hloop
  have hpreDet : (preEvs (demoKw cfg) (initFrames cfg).isSome pre).countP isDetectEvent = 0 :=
    preEvs_countP_detect_zero _ _ pre (fun x hx => (hpre x hx).2)
  have hpreRx :
      (preEvs (demoKw cfg) (initFrames cfg).isSome pre).countP isReactionEvent = 0 :=
    preEvs_countP_reaction_zero _ _ pre (fun x hx => (hpre x hx).2)
  have hpreRead :
      (preEvs (demoKw cfg) (initFrames cfg).isSome pre).countP isReadEvent = pre.length :=
    preEvs_countP_read _ _ pre hpre'
  have hpostDet :=
    (loopGo_nomatch_counts (demoKw cfg) post
      (((initFrames cfg).map (· ++ framesRead pre)).map (· ++ [unpack_h raw])) hpost).1
  have hpostRx :=
    (loopGo_nomatch_counts (demoKw cfg) post
      (((initFrames cfg).map (· ++ framesRead pre)).map (· ++ [unpack_h raw])) hpost).2
  have hstartRead : (startEvs cfg).countP isReadEvent = 0 :=
    countP_eq_zero_of_class (startEvs_start cfg) start_not_read
  have hstartDet : (startEvs cfg).countP isDetectEvent = 0 :=
    countP_eq_zero_of_class (startEvs_start cfg) start_not_detect
  simp only [Option.map_map] at hpostDet hpostRx
  refine ⟨?_, ?_, ?_⟩
  · rw [run_countP_loopish cfg _ start_not_detect cleanup_not_detect, hevs]
    simp [List.countP_append, List.countP_cons, isDetectEvent, hpreDet, hpostDet,
      Option.map_map, apply_ite (List.countP isDetectEvent)]
  · rw [run_countP_loopish cfg _ start_not_reaction cleanup_not_reaction, hevs]
    simp [List.countP_append, List.countP_cons, isReactionEvent, hpreRx, hpostRx,
      Option.map_map, apply_ite (List.countP isReactionEvent)]
  · refine ⟨startEvs cfg ++ preEvs (demoKw cfg) (initFrames cfg).isSome pre ++
      Event.readFrame (unpack_h raw) ::
        ((if (initFrames cfg).isSome then [Event.appendFrame (unpack_h raw)] else []) ++
          [Event.processFrame (unpack_h raw)]),
      (loopGo (demoKw cfg) post
        (((initFrames cfg).map (· ++ framesRead pre)).map (· ++ [unpack_h raw]))).evs ++
        exitTail cfg (pre ++ itK :: post), ?_, ?_, ?_, ?_⟩
    · rw [run_trace_eq, hevs]
      simp [List.append_assoc]
    · simp [List.countP_append, List.countP_cons, isReadEvent, hstartRead, hpreRead,
        apply_ite (List.countP isReadEvent)]
    · simp [List.countP_append, List.countP_cons, isDetectEvent, hstartDet, hpreDet,
        apply_ite (List.countP isDetectEvent)]
    · simp only [List.countP_append, Option.map_map]
      rw [hpostDet, exitTail_countP_zero cfg _ start_not_detect cleanup_not_detect]

/-- Witness for C4: one no-match frame, a matching frame, one more no-match
frame. -/
theorem C4_single_detection_between_reads_witness :
    ((∀ x ∈ ([⟨.ok [1], -1, true⟩] : List Iteration),
        (∃ r, x.read = .ok r) ∧ x.result < 0) ∧
      (⟨.ok [2], 0, true⟩ : Iteration).read = .ok [2] ∧
      (0 : Int) ≤ (⟨.ok [2], 0, true⟩ : Iteration).result ∧
      (⟨.ok [2], 0, true⟩ : Iteration).reactionOk = true ∧
      (∀ x ∈ ([⟨.ok [3], -1, true⟩] : List Iteration), x.result < 0)) ∧
    ((PorcupineDemo.run sampleCfgRec
        ([⟨.ok [1], -1, true⟩] ++ ⟨.ok [2], 0, true⟩ :: [⟨.ok [3], -1, true⟩])).trace.countP
        isDetectEvent = 1 ∧
      (PorcupineDemo.run sampleCfgRec
        ([⟨.ok [1], -1, true⟩] ++ ⟨.ok [2], 0, true⟩ :: [⟨.ok [3], -1, true⟩])).trace.countP
        isReactionEvent = 1 ∧
      ∃ t1 t2,
        (PorcupineDemo.run sampleCfgRec
          ([⟨.ok [1], -1, true⟩] ++ ⟨.ok [2], 0, true⟩ :: [⟨.ok [3], -1, true⟩])).trace =
          t1 ++ Event.detectPrint
              ((demoKw sampleCfgRec).getD
                (⟨.ok [2], 0, true⟩ : Iteration).result.toNat "") ::
            Event.reactionRun :: t2 ∧
        t1.countP isReadEvent = ([⟨.ok [1], -1, true⟩] : List Iteration).length + 1 ∧
        t1.countP isDetectEvent = 0 ∧
        t2.countP isDetectEvent = 0) :=
  ⟨⟨by
      intro x hx
      simp only [List.mem_cons, List.not_mem_nil, or_false] at hx
      subst hx
      exact ⟨⟨[1], rfl⟩, by decide⟩,
    rfl, by decide, rfl, by decide⟩,
    C4_single_detection_between_reads sampleCfgRec [⟨.ok [1], -1, true⟩]
      ⟨.ok [2], 0, true⟩ [2] [⟨.ok [3], -1, true⟩]
      (by
        intro x hx
        simp only [List.mem_cons, List.not_mem_nil, or_false] at hx
        subst hx
        exact ⟨⟨[1], rfl⟩, by decide⟩)
      rfl (by decide) rfl (by decide)⟩

/-- Counterexample to claim C1 as stated: the claim calls the release order
"reverse acquisition order", but the code acquires the detector (line 86)
*before* opening the stream (line 94) and also releases the detector
(line 129) before closing the stream (line 132) — release order equals
acquisition order, it is not its reverse. -/
theorem C1_release_not_reverse_of_acquisition :
    ((PorcupineDemo.run sampleCfgRec [⟨.interrupt, -1, true⟩]).trace.findIdx
        isAcquireDetectorEvent <
      (PorcupineDemo.run sampleCfgRec [⟨.interrupt, -1, true⟩]).trace.findIdx
        isAcquireStreamEvent) ∧
    ((PorcupineDemo.run sampleCfgRec [⟨.interrupt, -1, true⟩]).trace.findIdx
        isReleaseDetectorEvent <
      (PorcupineDemo.run sampleCfgRec [⟨.interrupt, -1, true⟩]).trace.findIdx
        isCloseStreamEvent) := by
  decide

/-- Claim C1 (amended): on every exit path of a session the detector is
released first, then the stream is closed (this is the same relative order
in which they were acquired, not the reverse), then PyAudio is terminated,
and only after all of that is the recording finalized to disk — and only
when recording was requested and at least one frame is held. -/
theorem C1_cleanup_order_amended (cfg : DemoConfig) (script : List Iteration)
    (h : (PorcupineDemo.run cfg script).outcome ≠ .running) :
    ∃ mid tail,
      (PorcupineDemo.run cfg script).trace =
        Event.acquireDetector :: Event.acquirePa :: Event.acquireStream :: mid ++
          Event.releaseDetector :: Event.closeStream :: Event.terminatePa :: tail ∧
      (∀ e ∈ mid, isCleanupEvent e = false) ∧
      tail =
        (match cfg.output_path, (PorcupineDemo.run cfg script).frames with
         | some p, some fs =>
           if 0 < fs.length then
             [Event.writeFile p (astypeInt16 fs.flatten) cfg.sample_rate "PCM_16"]
           else []
         | _, _ => []) := by
  have hfr := run_frames_eq cfg script
  rcases hexv : (demoLoop cfg script).ex
  case interrupted =>
    refine ⟨Event.printMsg "Listening \x7b" ::
      ((((cfg.keyword_paths.map keywordLabel).zip cfg.sensitivities).map
        (fun ks => Event.printKeyword ks.1 ks.2)) ++ [Event.printMsg "\x7d"]) ++
      (demoLoop cfg script).evs ++ [Event.printMsg "Stopping ..."], _, ?_, ?_, rfl⟩
    · rw [run_trace_eq]
      unfold exitTail
      rw [hexv, hfr]
      unfold startEvs cleanupEvents
      simp [List.append_assoc]
    · intro e he
      have hsplit : e ∈ startEvs cfg ∨ e ∈ (demoLoop cfg script).evs ∨
          e = Event.printMsg "Stopping ..." := by
        unfold startEvs
        simp only [List.cons_append, List.mem_cons, List.mem_append, List.mem_singleton,
          List.not_mem_nil, or_false] at he ⊢
        tauto
      rcases hsplit with h1 | h1 | rfl
      · exact start_not_cleanup e (startEvs_start cfg e h1)
      · exact loop_not_cleanup e
          (loopGo_evs_loop (demoKw cfg) script (initFrames cfg) e h1)
      · rfl
  case streamError =>
    refine ⟨Event.printMsg "Listening \x7b" ::
      ((((cfg.keyword_paths.map keywordLabel).zip cfg.sensitivities).map
        (fun ks => Event.printKeyword ks.1 ks.2)) ++ [Event.printMsg "\x7d"]) ++
      (demoLoop cfg script).evs, _, ?_, ?_, rfl⟩
    · rw [run_trace_eq]
      unfold exitTail
      rw [hexv, hfr]
      unfold startEvs cleanupEvents
      simp [List.append_assoc]
    · intro e he
      have hsplit : e ∈ startEvs cfg ∨ e ∈ (demoLoop cfg script).evs := by
        unfold startEvs
        simp only [List.cons_append, List.mem_cons, List.mem_append, List.mem_singleton,
          List.not_mem_nil, or_false] at he ⊢
        tauto
      rcases hsplit with h1 | h1
      · exact start_not_cleanup e (startEvs_start cfg e h1)
      · exact loop_not_cleanup e
          (loopGo_evs_loop (demoKw cfg) script (initFrames cfg) e h1)
  case reactionError =>
    refine ⟨Event.printMsg "Listening \x7b" ::
      ((((cfg.keyword_paths.map keywordLabel).zip cfg.sensitivities).map
        (fun ks => Event.printKeyword ks.1 ks.2)) ++ [Event.printMsg "\x7d"]) ++
      (demoLoop cfg script).evs, _, ?_, ?_, rfl⟩
    · rw [run_trace_eq]
      unfold exitTail
      rw [hexv, hfr]
      unfold startEvs cleanupEvents
      simp [List.append_assoc]
    · intro e he
      have hsplit : e ∈ startEvs cfg ∨ e ∈ (demoLoop cfg script).evs := by
        unfold startEvs
        simp only [List.cons_append, List.mem_cons, List.mem_append, List.mem_singleton,
          List.not_mem_nil, or_false] at he ⊢
        tauto
      rcases hsplit with h1 | h1
      · exact start_not_cleanup e (startEvs_start cfg e h1)
      · exact loop_not_cleanup e
          (loopGo_evs_loop (demoKw cfg) script (initFrames cfg) e h1)
  case exhausted =>
    exfalso
    rw [run_outcome_eq, hexv] at h
    exact h rfl

/-- Witness for the amended C1: an interrupted recording session with one
frame. -/
theorem C1_cleanup_order_amended_witness :
    (PorcupineDemo.run sampleCfgRec
      [⟨.ok [9], -1, true⟩, ⟨.interrupt, -1, true⟩]).outcome ≠ .running ∧
    ∃ mid tail,
      (PorcupineDemo.run sampleCfgRec
        [⟨.ok [9], -1, true⟩, ⟨.interrupt, -1, true⟩]).trace =
        Event.acquireDetector :: Event.acquirePa :: Event.acquireStream :: mid ++
          Event.releaseDetector :: Event.closeStream :: Event.terminatePa :: tail ∧
      (∀ e ∈ mid, isCleanupEvent e = false) ∧
      tail =
        (match sampleCfgRec.output_path, (PorcupineDemo.run sampleCfgRec
            [⟨.ok [9], -1, true⟩, ⟨.interrupt, -1, true⟩]).frames with
         | some p, some fs =>
           if 0 < fs.length then
             [Event.writeFile p (astypeInt16 fs.flatten) sampleCfgRec.sample_rate "PCM_16"]
           else []
         | _, _ => []) :=
  ⟨by decide,
    C1_cleanup_order_amended sampleCfgRec
      [⟨.ok [9], -1, true⟩, ⟨.interrupt, -1, true⟩] (by decide)⟩
